import Mathlib

/-!
Shallow embedding of the sano SMS quiz service: the in-memory session store
(`server/src/shared/session.ts`), the quiz progression engine
(`SmsQuizService` in `quiz.service.ts`), the `/sms/incoming` dispatcher
(`quiz.route.ts`), and the outbound delivery functions with retry/backoff
(`server/src/shared/sms.ts`).  HTTP gateway behaviour is a parameter
(a function from attempt number to result), `Math.random` jitter is a
parameter, and the question provider (`getRandomQuestions`) is a parameter
supplying the list of questions it returns.
-/

namespace Sano

/-- Embeds `Question` from `session.ts`: id, prompt text, ordered options,
correct-answer token. -/
structure Question where
  id : String
  text : String
  options : List String
  correctAnswer : String
deriving DecidableEq, Repr

/-- Embeds `QuizSession` from `session.ts`. -/
structure QuizSession where
  phoneNumber : String
  currentQuestionIndex : Nat
  questions : List Question
  currentScore : Nat
  isCompleted : Bool
  aggregateScore : Nat
deriving DecidableEq, Repr

/-- Embeds the in-memory `sessionStore` (`Record<string, QuizSession>`) as a
map from phone number to optional session. -/
abbrev Store := String → Option QuizSession

/-- Embeds the JavaScript `String.prototype.trim()` (for the ASCII whitespace
the quiz messages use), computing on the underlying character list so that
proofs can evaluate it. -/
def jsTrim (s : String) : String :=
  ⟨((s.data.dropWhile Char.isWhitespace).reverse.dropWhile Char.isWhitespace).reverse⟩

/-- Embeds the JavaScript `String.prototype.toUpperCase()` (for the ASCII
alphabet the quiz answers use), computing on the underlying character list. -/
def jsToUpper (s : String) : String :=
  ⟨s.data.map Char.toUpper⟩

/-- Embeds `getSession` from `session.ts`. -/
def getSession (phoneNumber : String) (σ : Store) : Option QuizSession :=
  σ phoneNumber

/-- Embeds `setSession` from `session.ts`. -/
def setSession (phoneNumber : String) (s : QuizSession) (σ : Store) : Store :=
  fun q => if q = phoneNumber then some s else σ q

/-- Embeds `clearSession` from `session.ts` (`delete sessionStore[phoneNumber]`). -/
def clearSession (phoneNumber : String) (σ : Store) : Store :=
  fun q => if q = phoneNumber then none else σ q

/-- Empty session store. -/
def emptyStore : Store := fun _ => none

/-- Embeds `SmsQuizService.startQuiz`.  `questions` is the list returned by
`getRandomQuestions()` (the DB query `limit(10)` is external; the provider's
result is passed in).  The TS returns `questions[0]`, which is `undefined`
when the list is empty; that is modelled as `Option`.  Note the source
performs no length check before building the session. -/
def startQuiz (phoneNumber : String) (questions : List Question) (σ : Store) :
    Option Question × Store :=
  let session : QuizSession :=
    { phoneNumber := phoneNumber
      currentQuestionIndex := 0
      questions := questions
      currentScore := 0
      isCompleted := false
      aggregateScore := 0 }
  (questions[0]?, setSession phoneNumber session σ)

/-- Error text from `SmsQuizService.processAnswer`. -/
def noActiveMsg : String := "No active quiz session. Send START to begin."

/-- Result value of `SmsQuizService.processAnswer`: either the `{ error }`
object, or the `{ correct, nextQuestion, done, score, aggregateScore }`
object; `crash` models the TypeError the TS would raise when
`session.questions[session.currentQuestionIndex]` is `undefined`. -/
inductive AnswerResult where
  | error (msg : String)
  | crash
  | answered (correct : Bool) (nextQuestion : Option Question) (done : Bool)
      (score : Nat) (aggregateScore : Nat)
deriving DecidableEq, Repr

/-- Embeds the sequential mutation of the session inside `processAnswer`:
score bump when correct, index advance, and the completion branch that sets
`isCompleted` and folds `currentScore` into `aggregateScore`. -/
def updatedSession (s : QuizSession) (currentQ : Question) (answer : String) :
    QuizSession :=
  let isCorrect := jsToUpper (jsTrim currentQ.correctAnswer) == jsToUpper (jsTrim answer)
  let score := if isCorrect then s.currentScore + 1 else s.currentScore
  let idx := s.currentQuestionIndex + 1
  if s.questions.length ≤ idx then
    { s with currentScore := score, currentQuestionIndex := idx,
             isCompleted := true, aggregateScore := s.aggregateScore + score }
  else
    { s with currentScore := score, currentQuestionIndex := idx }

/-- Embeds `SmsQuizService.processAnswer`.  Answer comparison is
`currentQ.correctAnswer.trim().toUpperCase() === answer.trim().toUpperCase()`.
On completion the session is removed via `clearSession`; otherwise the
mutated session is stored via `setSession`. -/
def processAnswer (phoneNumber answer : String) (σ : Store) :
    AnswerResult × Store :=
  match getSession phoneNumber σ with
  | none => (AnswerResult.error noActiveMsg, σ)
  | some session =>
    if session.isCompleted then (AnswerResult.error noActiveMsg, σ)
    else
      match session.questions[session.currentQuestionIndex]? with
      | none => (AnswerResult.crash, σ)
      | some currentQ =>
        let isCorrect := jsToUpper (jsTrim currentQ.correctAnswer) == jsToUpper (jsTrim answer)
        let s := updatedSession session currentQ answer
        if s.questions.length ≤ s.currentQuestionIndex then
          (AnswerResult.answered isCorrect none true s.currentScore s.aggregateScore,
           clearSession phoneNumber σ)
        else
          (AnswerResult.answered isCorrect s.questions[s.currentQuestionIndex]?
             false s.currentScore s.aggregateScore,
           setSession phoneNumber s σ)

/-! Delivery subsystem (`server/src/shared/sms.ts`).  One HTTP attempt is
modelled by a `GatewayResult`; the gateway is a function from (1-based)
attempt number to the result of that attempt; jitter is a function from
attempt number to the value of `Math.floor(Math.random() * 100)` drawn
before the sleep that follows that attempt. -/


/-- Outcome of one axios call: `ok success` is a resolved response whose
body carries `success` (`none` when the body or its `success` field is
absent, `some b` when present with boolean value `b`); `err status` is a
rejected call carrying `error.response?.status` (`none` for network errors
and other responseless failures). -/
inductive GatewayResult where
  | ok (success : Option Bool)
  | err (status : Option Nat)
deriving DecidableEq, Repr

/-- Retry configuration of `subscribeUser` / `chargeUser`: `maxAttempts`,
`baseDelayMs`, `maxDelayMs`. -/
structure RetryConfig where
  maxAttempts : Nat
  baseDelayMs : Nat
  maxDelayMs : Nat
deriving DecidableEq, Repr

/-- Embeds `Number(process.env.X) || d`: an unset variable gives `NaN` and a
zero value is falsy, so both fall back to the default `d`. -/
def envNumOr (v : Option Nat) (d : Nat) : Nat :=
  match v with
  | none => d
  | some n => if n = 0 then d else n

/-- Retry configuration with no environment overrides set. -/
def defaultRetryConfig : RetryConfig :=
  { maxAttempts := envNumOr none 5
    baseDelayMs := envNumOr none 500
    maxDelayMs := envNumOr none 5000 }

/-- Embeds `computeDelay`:
`Math.min(maxDelayMs, baseDelayMs * Math.pow(2, attempt - 1)) + jitter`. -/
def computeDelay (cfg : RetryConfig) (attempt : Nat) (jitter : Nat) : Nat :=
  min cfg.maxDelayMs (cfg.baseDelayMs * 2 ^ (attempt - 1)) + jitter

/-- Embeds `const isRetryable = !status || status >= 500 || status === 429
|| status === 408` from the catch blocks of `subscribeUser`/`chargeUser`. -/
def isRetryable (status : Option Nat) : Bool :=
  match status with
  | none => true
  | some s => decide (500 ≤ s) || s == 429 || s == 408

/-- Final outcome of `subscribeUser` / `chargeUser`: `success n` is a return
on attempt `n`; `failed n` is the thrown
`Failed to ... after n attempt(s): <message>` error (a final-attempt
non-success body also lands here, because its `throw` inside the `try` is
re-caught and re-thrown with the attempt count); `unexpected` is the
post-loop `throw`, reachable only when the loop body never runs. -/
inductive ExecResult where
  | success (attempts : Nat)
  | failed (attempts : Nat)
  | unexpected
deriving DecidableEq, Repr

/-- Embeds the `for (let attempt = 1; attempt <= maxAttempts; attempt++)`
loop of `subscribeUser`, with `fuel` the number of remaining iterations;
the second component collects the delays passed to `sleep`. -/
def subscribeLoop (cfg : RetryConfig) (gw : Nat → GatewayResult)
    (jitter : Nat → Nat) : Nat → Nat → ExecResult × List Nat
  | _, 0 => (ExecResult.unexpected, [])
  | attempt, fuel + 1 =>
    match gw attempt with
    | GatewayResult.ok success =>
      if success = some true then (ExecResult.success attempt, [])
      else if attempt < cfg.maxAttempts then
        let r := subscribeLoop cfg gw jitter (attempt + 1) fuel
        (r.1, computeDelay cfg attempt (jitter attempt) :: r.2)
      else (ExecResult.failed attempt, [])
    | GatewayResult.err status =>
      if isRetryable status = true ∧ attempt < cfg.maxAttempts then
        let r := subscribeLoop cfg gw jitter (attempt + 1) fuel
        (r.1, computeDelay cfg attempt (jitter attempt) :: r.2)
      else (ExecResult.failed attempt, [])

/-- Embeds `subscribeUser` from `sms.ts`: run the retry loop from attempt 1. -/
def subscribeUser (cfg : RetryConfig) (gw : Nat → GatewayResult)
    (jitter : Nat → Nat) : ExecResult × List Nat :=
  subscribeLoop cfg gw jitter 1 cfg.maxAttempts

/-- Embeds the retry loop of `chargeUser`, a verbatim duplicate of the
`subscribeUser` loop in the source (only endpoint and message text differ). -/
def chargeLoop (cfg : RetryConfig) (gw : Nat → GatewayResult)
    (jitter : Nat → Nat) : Nat → Nat → ExecResult × List Nat
  | _, 0 => (ExecResult.unexpected, [])
  | attempt, fuel + 1 =>
    match gw attempt with
    | GatewayResult.ok success =>
      if success = some true then (ExecResult.success attempt, [])
      else if attempt < cfg.maxAttempts then
        let r := chargeLoop cfg gw jitter (attempt + 1) fuel
        (r.1, computeDelay cfg attempt (jitter attempt) :: r.2)
      else (ExecResult.failed attempt, [])
    | GatewayResult.err status =>
      if isRetryable status = true ∧ attempt < cfg.maxAttempts then
        let r := chargeLoop cfg gw jitter (attempt + 1) fuel
        (r.1, computeDelay cfg attempt (jitter attempt) :: r.2)
      else (ExecResult.failed attempt, [])

/-- Embeds `chargeUser` from `sms.ts`. -/
def chargeUser (cfg : RetryConfig) (gw : Nat → GatewayResult)
    (jitter : Nat → Nat) : ExecResult × List Nat :=
  chargeLoop cfg gw jitter 1 cfg.maxAttempts

/-- Result of `sendSms`: it returns `response.data` on any resolved
response and throws on any rejected call. -/
inductive SendResult where
  | success
  | thrown
deriving DecidableEq, Repr

/-- Embeds `sendSms` from `sms.ts`: a single `axios.post` with no retry
loop, no timeout option, and no inspection of the response body; the
catch block rethrows immediately. -/
def sendSms (gw : GatewayResult) : SendResult :=
  match gw with
  | GatewayResult.ok _ => SendResult.success
  | GatewayResult.err _ => SendResult.thrown

/-! Command dispatcher: the `/sms/incoming` handler in `quiz.route.ts`.
Outbound gateway calls are recorded as an ordered trace of actions; the
scenario claims presuppose the deliveries succeed. -/


/-- One outbound call made by the handler, in source order:
`sendSms` (notify), `subscribeUser`, `chargeUser`, `SmsQuizService.startQuiz`. -/
inductive Action where
  | notify (recipient msg : String)
  | subscribe (msisdn plan : String)
  | charge (msisdn plan : String)
  | start (phone : String)
deriving DecidableEq, Repr

/-- Result of one `/sms/incoming` dispatch: HTTP status of the webhook
reply, the ordered trace of outbound calls, the composed `responseMsg`
(none when the handler throws before composing it), and the session store
afterwards. -/
structure DispatchResult where
  status : Nat
  actions : List Action
  reply : Option String
  store : Store

/-- Welcome text of the `BTD` branch. -/
def welcomeDaily : String :=
  "Welcome to Brain Teaser! Answer simple questions and stand a chance to win fantastic prizes."

/-- Welcome text of the `BTW` branch. -/
def welcomeWeekly : String :=
  "Welcome to Brain Teaser Weekly! Answer simple questions and stand a chance to win fantastic prizes."

/-- Welcome text of the `BTM` branch. -/
def welcomeMonthly : String :=
  "Welcome to Brain Teaser Monthly! Answer simple questions and stand a chance to win fantastic prizes."

/-- Embeds a JavaScript template placeholder holding `options[i]`: the
element, or the string `undefined` rendered for a missing index. -/
def jsStr (o : Option String) : String :=
  match o with
  | some s => s
  | none => "undefined"

/-- Embeds the option block `\nA) ${q.options[0]}\nB) ...\nC) ...\nD) ...`
used by every question-bearing reply in the handler. -/
def optionBlock (q : Question) : String :=
  "\nA) " ++ jsStr q.options[0]? ++ "\nB) " ++ jsStr q.options[1]? ++
    "\nC) " ++ jsStr q.options[2]? ++ "\nD) " ++ jsStr q.options[3]?

/-- Embeds the start-branch body shared by `BTD`/`BTW`/`BTM`: send the
welcome, (for `BTD`) subscribe and charge, start the quiz, and compose
`Quiz started!\nQ1: ${firstQ.text}...`.  When `startQuiz` returns no first
question (`firstQ` is `undefined`), reading `firstQ.text` throws and the
final reply send never happens (status 500). -/
def startBranch (sender : String) (pre : List Action)
    (provider : List Question) (σ : Store) : DispatchResult :=
  let r := startQuiz sender provider σ
  match r.1 with
  | none => { status := 500, actions := pre, reply := none, store := r.2 }
  | some firstQ =>
    let responseMsg := "Quiz started!\nQ1: " ++ firstQ.text ++ optionBlock firstQ
    { status := 200
      actions := pre ++ [Action.start sender, Action.notify sender responseMsg]
      reply := some responseMsg
      store := r.2 }

/-- Embeds the `/sms/incoming` handler of `quiz.route.ts`: reject missing
fields with 400; on `BTD` notify, subscribe(DAILY), charge(DAILY), start;
on `BTW`/`BTM` notify then start; otherwise process the text as an answer
and compose the correctness / completion / error reply; finally send one
notify carrying `responseMsg`. -/
def handleIncoming (provider : List Question) (sender msg : String)
    (σ : Store) : DispatchResult :=
  if sender = "" ∨ msg = "" then
    { status := 400, actions := [], reply := none, store := σ }
  else if jsToUpper (jsTrim msg) == "BTD" then
    startBranch sender
      [Action.notify sender welcomeDaily,
       Action.subscribe sender "DAILY",
       Action.charge sender "DAILY"] provider σ
  else if jsToUpper (jsTrim msg) == "BTW" then
    startBranch sender [Action.notify sender welcomeWeekly] provider σ
  else if jsToUpper (jsTrim msg) == "BTM" then
    startBranch sender [Action.notify sender welcomeMonthly] provider σ
  else
    let r := processAnswer sender (jsTrim msg) σ
    match r.1 with
    | AnswerResult.error e =>
      { status := 200, actions := [Action.notify sender e],
        reply := some e, store := r.2 }
    | AnswerResult.crash =>
      { status := 500, actions := [], reply := none, store := r.2 }
    | AnswerResult.answered correct nextQ done score agg =>
      let responseMsg :=
        if done then
          "Quiz complete! Your score: " ++ toString score ++
            "/10. Aggregate: " ++ toString agg
        else
          match nextQ with
          | some q =>
            (if correct then "Correct!" else "Wrong!") ++ "\nQ" ++ q.id ++
              ": " ++ q.text ++ optionBlock q
          | none => if correct then "Correct!" else "Wrong!"
      { status := 200, actions := [Action.notify sender responseMsg],
        reply := some responseMsg, store := r.2 }

/-- Runs a sequence of inbound messages from one sender through the
handler, returning the last dispatch result (the store threads through). -/
def runMessages (provider : List Question) (sender : String) :
    List String → Store → DispatchResult
  | [], σ => { status := 200, actions := [], reply := none, store := σ }
  | [m], σ => handleIncoming provider sender m σ
  | m :: m2 :: rest, σ =>
    runMessages provider sender (m2 :: rest)
      (handleIncoming provider sender m σ).store

/-! Helper lemmas about `processAnswer`, and demo data for the concrete
scenarios. -/


/-- Ten demo questions standing for a question-provider result: ids 1..10,
prompts T1..T10, four options each, correct-answer token `A`. -/
def demoQuestions : List Question :=
  [⟨"1", "T1", ["A1", "B1", "C1", "D1"], "A"⟩,
   ⟨"2", "T2", ["A2", "B2", "C2", "D2"], "A"⟩,
   ⟨"3", "T3", ["A3", "B3", "C3", "D3"], "A"⟩,
   ⟨"4", "T4", ["A4", "B4", "C4", "D4"], "A"⟩,
   ⟨"5", "T5", ["A5", "B5", "C5", "D5"], "A"⟩,
   ⟨"6", "T6", ["A6", "B6", "C6", "D6"], "A"⟩,
   ⟨"7", "T7", ["A7", "B7", "C7", "D7"], "A"⟩,
   ⟨"8", "T8", ["A8", "B8", "C8", "D8"], "A"⟩,
   ⟨"9", "T9", ["A9", "B9", "C9", "D9"], "A"⟩,
   ⟨"10", "T10", ["A10", "B10", "C10", "D10"], "A"⟩]

/-- Three demo questions standing for a provider that returns fewer than N
questions. -/
def shortQuestions : List Question :=
  [⟨"1", "T1", ["A1", "B1", "C1", "D1"], "A"⟩,
   ⟨"2", "T2", ["A2", "B2", "C2", "D2"], "B"⟩,
   ⟨"3", "T3", ["A3", "B3", "C3", "D3"], "C"⟩]

/-- A demo session sitting at the first of the three short questions. -/
def demoSession : QuizSession :=
  { phoneNumber := "p", currentQuestionIndex := 0, questions := shortQuestions,
    currentScore := 0, isCompleted := false, aggregateScore := 0 }

/-- Scenario driver: submit a sequence of answers for `p` one call at a
time, threading the store, and return the last call's result with the final
store. -/
def runAnswersLast (p : String) : List String → Store → AnswerResult × Store
  | [], σ => (AnswerResult.error noActiveMsg, σ)
  | [a], σ => processAnswer p a σ
  | a :: a2 :: rest, σ =>
    runAnswersLast p (a2 :: rest) (processAnswer p a σ).2

/-- Invariant from the specification data model: the index stays within
bounds and the completion flag holds exactly at the end. -/
def sessionInv (s : QuizSession) : Prop :=
  s.currentQuestionIndex ≤ s.questions.length ∧
    (s.isCompleted = true ↔ s.currentQuestionIndex = s.questions.length)

/-- Every session held in the store satisfies the session invariant. -/
def storeInv (σ : Store) : Prop :=
  ∀ p s, σ p = some s → sessionInv s

/-! Helper lemmas about the retry loops. -/


/-- When every attempt in range raises a retryable error, the loop sleeps
after each non-final attempt and ends on the final attempt with the
attempt-counted failure. -/
lemma subscribeLoop_all_retryable (cfg : RetryConfig) (gw : Nat → GatewayResult)
    (jitter : Nat → Nat)
    (h : ∀ k, 1 ≤ k → k ≤ cfg.maxAttempts →
      ∃ st, gw k = GatewayResult.err st ∧ isRetryable st = true) :
    ∀ fuel attempt, 1 ≤ attempt → attempt ≤ cfg.maxAttempts →
      attempt + fuel = cfg.maxAttempts + 1 →
      subscribeLoop cfg gw jitter attempt fuel =
        (ExecResult.failed cfg.maxAttempts,
         (List.range' attempt (cfg.maxAttempts - attempt)).map
           (fun i => computeDelay cfg i (jitter i))) := by
  intro fuel
  induction fuel with
  | zero => intro attempt h1 h2 h3; omega
  | succ f ih =>
    intro attempt h1 h2 h3
    obtain ⟨st, hgw, hret⟩ := h attempt h1 h2
    by_cases hlt : attempt < cfg.maxAttempts
    · have hrec := ih (attempt + 1) (by omega) (by omega) (by omega)
      have hn : cfg.maxAttempts - attempt = (cfg.maxAttempts - (attempt + 1)) + 1 := by
        omega
      simp only [subscribeLoop, hgw, if_pos (And.intro hret hlt), hrec, hn,
        List.range', List.map_cons]
    · have heq : attempt = cfg.maxAttempts := by omega
      have hn : cfg.maxAttempts - attempt = 0 := by omega
      simp only [subscribeLoop, hgw, hn, List.range', List.map_nil]
      rw [if_neg (by intro hcon; exact hlt hcon.2)]
      simp [heq]

/-- When attempts before `n` raise retryable errors and attempt `n` raises a
non-retryable error, the loop stops at attempt `n` with the attempt-counted
failure, having slept only after the earlier attempts. -/
lemma subscribeLoop_terminal (cfg : RetryConfig) (gw : Nat → GatewayResult)
    (jitter : Nat → Nat) (n : Nat) (st : Option Nat)
    (hnm : n ≤ cfg.maxAttempts)
    (hpre : ∀ k, 1 ≤ k → k < n →
      ∃ s, gw k = GatewayResult.err s ∧ isRetryable s = true)
    (hgwn : gw n = GatewayResult.err st) (hterm : isRetryable st = false) :
    ∀ fuel attempt, 1 ≤ attempt → attempt ≤ n →
      attempt + fuel = cfg.maxAttempts + 1 →
      subscribeLoop cfg gw jitter attempt fuel =
        (ExecResult.failed n,
         (List.range' attempt (n - attempt)).map
           (fun i => computeDelay cfg i (jitter i))) := by
  intro fuel
  induction fuel with
  | zero => intro attempt h1 h2 h3; omega
  | succ f ih =>
    intro attempt h1 h2 h3
    by_cases hlt : attempt < n
    · obtain ⟨s, hgw, hret⟩ := hpre attempt h1 hlt
      have hltm : attempt < cfg.maxAttempts := by omega
      have hrec := ih (attempt + 1) (by omega) (by omega) (by omega)
      have hn : n - attempt = (n - (attempt + 1)) + 1 := by omega
      simp only [subscribeLoop, hgw, if_pos (And.intro hret hltm), hrec,
        hn, List.range', List.map_cons]
    · have heq : attempt = n := by omega
      subst heq
      simp only [subscribeLoop, hgwn, Nat.sub_self, List.range', List.map_nil]
      rw [if_neg (by intro hcon; rw [hterm] at hcon; exact Bool.false_ne_true hcon.1)]

/-- The two copies of the retry loop in the source are the same function. -/
lemma subscribeLoop_eq_chargeLoop (cfg : RetryConfig) (gw : Nat → GatewayResult)
    (jitter : Nat → Nat) :
    ∀ fuel attempt,
      subscribeLoop cfg gw jitter attempt fuel = chargeLoop cfg gw jitter attempt fuel := by
  intro fuel
  induction fuel with
  | zero => intro attempt; rfl
  | succ f ih =>
    intro attempt
    simp only [subscribeLoop, chargeLoop, ih]

/-- A resolved response without `success === true` on a non-final attempt
leads to a sleep and another attempt. -/
lemma subscribeLoop_ok_retry (cfg : RetryConfig) (gw : Nat → GatewayResult)
    (jitter : Nat → Nat) (attempt fuel : Nat) (b : Option Bool)
    (hok : gw attempt = GatewayResult.ok b) (hb : b ≠ some true)
    (hlt : attempt < cfg.maxAttempts) :
    subscribeLoop cfg gw jitter attempt (fuel + 1) =
      ((subscribeLoop cfg gw jitter (attempt + 1) fuel).1,
       computeDelay cfg attempt (jitter attempt) ::
         (subscribeLoop cfg gw jitter (attempt + 1) fuel).2) := by
  simp only [subscribeLoop, hok, if_neg hb, if_pos hlt]

/-- A resolved response with `success === true` returns at once. -/
lemma subscribeLoop_ok_success (cfg : RetryConfig) (gw : Nat → GatewayResult)
    (jitter : Nat → Nat) (attempt fuel : Nat)
    (hok : gw attempt = GatewayResult.ok (some true)) :
    subscribeLoop cfg gw jitter attempt (fuel + 1) =
      (ExecResult.success attempt, []) := by
  simp [subscribeLoop, hok]

/-- Behaviour of `processAnswer` on the last question of an active session:
it scores the answer, marks completion, folds the score into the aggregate,
and deletes the session. -/
lemma processAnswer_final (p a : String) (σ : Store) (s : QuizSession)
    (cq : Question) (hs : σ p = some s) (hc : s.isCompleted = false)
    (hq : s.questions[s.currentQuestionIndex]? = some cq)
    (hdone : s.questions.length ≤ s.currentQuestionIndex + 1) :
    processAnswer p a σ =
      (AnswerResult.answered
        (jsToUpper (jsTrim cq.correctAnswer) == jsToUpper (jsTrim a)) none true
        (if jsToUpper (jsTrim cq.correctAnswer) == jsToUpper (jsTrim a) then
          s.currentScore + 1 else s.currentScore)
        (s.aggregateScore +
          (if jsToUpper (jsTrim cq.correctAnswer) == jsToUpper (jsTrim a) then
            s.currentScore + 1 else s.currentScore)),
       clearSession p σ) := by
  simp [processAnswer, getSession, hs, hc, hq, updatedSession, hdone]

/-- Behaviour of `processAnswer` on a non-final question of an active
session: it scores the answer, advances the index, stores the mutated
session and returns the next question. -/
lemma processAnswer_mid (p a : String) (σ : Store) (s : QuizSession)
    (cq : Question) (hs : σ p = some s) (hc : s.isCompleted = false)
    (hq : s.questions[s.currentQuestionIndex]? = some cq)
    (hmid : s.currentQuestionIndex + 1 < s.questions.length) :
    processAnswer p a σ =
      (AnswerResult.answered
        (jsToUpper (jsTrim cq.correctAnswer) == jsToUpper (jsTrim a))
        (s.questions[s.currentQuestionIndex + 1]?) false
        (if jsToUpper (jsTrim cq.correctAnswer) == jsToUpper (jsTrim a) then
          s.currentScore + 1 else s.currentScore)
        s.aggregateScore,
       setSession p
         { s with
            currentScore :=
              if jsToUpper (jsTrim cq.correctAnswer) == jsToUpper (jsTrim a) then
                s.currentScore + 1 else s.currentScore
            currentQuestionIndex := s.currentQuestionIndex + 1 } σ) := by
  have hnd : ¬ s.questions.length ≤ s.currentQuestionIndex + 1 := by omega
  simp [processAnswer, getSession, hs, hc, hq, updatedSession, hnd]

/-- With no stored session for `p`, `processAnswer` returns the error and
leaves the store untouched. -/
lemma processAnswer_none (p a : String) (σ : Store) (hs : σ p = none) :
    processAnswer p a σ = (AnswerResult.error noActiveMsg, σ) := by
  simp [processAnswer, getSession, hs]

/-- With a stored session already completed, `processAnswer` returns the
error and leaves the store untouched. -/
lemma processAnswer_completed (p a : String) (σ : Store) (s : QuizSession)
    (hs : σ p = some s) (hc : s.isCompleted = true) :
    processAnswer p a σ = (AnswerResult.error noActiveMsg, σ) := by
  simp [processAnswer, getSession, hs, hc]

/-- Submitting exactly the number of answers that remain in an active
session ends with a done result and deletes the session. -/
lemma runAnswersLast_completes (p : String) :
    ∀ (answers : List String) (σ : Store) (s : QuizSession),
      answers ≠ [] → σ p = some s → s.isCompleted = false →
      s.currentQuestionIndex + answers.length = s.questions.length →
      (∃ c sc ag, (runAnswersLast p answers σ).1 =
          AnswerResult.answered c none true sc ag)
      ∧ ((runAnswersLast p answers σ).2) p = none := by
  intro answers
  induction answers with
  | nil => intro σ s hne; exact absurd rfl hne
  | cons a rest ih =>
    intro σ s _ hs hc hlen
    have hlt : s.currentQuestionIndex < s.questions.length := by
      simp only [List.length_cons] at hlen
      omega
    obtain ⟨cq, hq⟩ : ∃ cq, s.questions[s.currentQuestionIndex]? = some cq :=
      ⟨_, List.getElem?_eq_getElem hlt⟩
    cases rest with
    | nil =>
      have hdone : s.questions.length ≤ s.currentQuestionIndex + 1 := by
        simp only [List.length_cons, List.length_nil] at hlen
        omega
      have hfin := processAnswer_final p a σ s cq hs hc hq hdone
      constructor
      · exact ⟨_, _, _, by rw [show runAnswersLast p [a] σ = processAnswer p a σ from rfl, hfin]⟩
      · rw [show runAnswersLast p [a] σ = processAnswer p a σ from rfl, hfin]
        simp [clearSession]
    | cons a2 rest2 =>
      have hmid : s.currentQuestionIndex + 1 < s.questions.length := by
        simp only [List.length_cons] at hlen
        omega
      have hstep := processAnswer_mid p a σ s cq hs hc hq hmid
      have hrun : runAnswersLast p (a :: a2 :: rest2) σ =
          runAnswersLast p (a2 :: rest2) (processAnswer p a σ).2 := rfl
      rw [hrun, hstep]
      refine ih (setSession p
          { s with
              currentScore :=
                if jsToUpper (jsTrim cq.correctAnswer) == jsToUpper (jsTrim a) then
                  s.currentScore + 1 else s.currentScore
              currentQuestionIndex := s.currentQuestionIndex + 1 } σ)
        { s with
            currentScore :=
              if jsToUpper (jsTrim cq.correctAnswer) == jsToUpper (jsTrim a) then
                s.currentScore + 1 else s.currentScore
            currentQuestionIndex := s.currentQuestionIndex + 1 }
        (by simp) (by simp [setSession]) (by simpa using hc) ?_
      simp only [List.length_cons] at hlen
      simp
      omega

/-- The session produced by the mutation step of `processAnswer` satisfies
the invariant whenever the input session does, is not completed, and has
its current question in bounds. -/
lemma updatedSession_inv (a : String) (s : QuizSession) (cq : Question)
    (hc : s.isCompleted = false)
    (hq : s.questions[s.currentQuestionIndex]? = some cq) :
    sessionInv (updatedSession s cq a) := by
  have hlt : s.currentQuestionIndex < s.questions.length := by
    rw [List.getElem?_eq_some] at hq
    exact hq.1
  by_cases hdone : s.questions.length ≤ s.currentQuestionIndex + 1
  · simp [updatedSession, sessionInv, if_pos hdone]
    omega
  · simp [updatedSession, sessionInv, if_neg hdone, hc]
    omega

/-- C2: for subscribe and charge deliveries, failures with no status, 5xx,
429 or 408 are retryable, and if every one of `maxAttempts` attempts fails
retryably the raised failure carries attempt count `maxAttempts`; any other
4xx status is terminal and raised on the attempt it occurs, with no further
attempt and no backoff sleep after it (so exactly `n - 1` sleeps, and none
at all when it occurs on the first call). -/
theorem retry_exhaustion_and_terminal (cfg : RetryConfig)
    (gw : Nat → GatewayResult) (jitter : Nat → Nat)
    (hmax : 1 ≤ cfg.maxAttempts) :
    ((∀ k, 1 ≤ k → k ≤ cfg.maxAttempts →
        ∃ st, gw k = GatewayResult.err st ∧ isRetryable st = true) →
      (subscribeUser cfg gw jitter).1 = ExecResult.failed cfg.maxAttempts ∧
        (chargeUser cfg gw jitter).1 = ExecResult.failed cfg.maxAttempts)
    ∧ (∀ n s, 1 ≤ n → n ≤ cfg.maxAttempts →
        (∀ k, 1 ≤ k → k < n →
          ∃ st, gw k = GatewayResult.err st ∧ isRetryable st = true) →
        gw n = GatewayResult.err (some s) →
        400 ≤ s → s < 500 → s ≠ 429 → s ≠ 408 →
        subscribeUser cfg gw jitter =
          (ExecResult.failed n,
           (List.range' 1 (n - 1)).map (fun i => computeDelay cfg i (jitter i))) ∧
        chargeUser cfg gw jitter =
          (ExecResult.failed n,
           (List.range' 1 (n - 1)).map (fun i => computeDelay cfg i (jitter i))))
    ∧ isRetryable none = true
    ∧ (∀ s, 500 ≤ s → isRetryable (some s) = true)
    ∧ isRetryable (some 429) = true ∧ isRetryable (some 408) = true := by
  refine ⟨?_, ?_, by decide, ?_, by decide, by decide⟩
  · intro h
    have h1 := subscribeLoop_all_retryable cfg gw jitter h cfg.maxAttempts 1
      le_rfl hmax (by omega)
    constructor
    · show (subscribeLoop cfg gw jitter 1 cfg.maxAttempts).1 = _
      rw [h1]
    · show (chargeLoop cfg gw jitter 1 cfg.maxAttempts).1 = _
      rw [← subscribeLoop_eq_chargeLoop, h1]
  · intro n s hn1 hnm hpre hgwn h400 h500 h429 h408
    have hterm : isRetryable (some s) = false := by
      simp only [isRetryable, Bool.or_eq_false_iff, decide_eq_false_iff_not,
        beq_eq_false_iff_ne, ne_eq]
      exact ⟨⟨by omega, h429⟩, h408⟩
    have h1 := subscribeLoop_terminal cfg gw jitter n (some s) hnm hpre hgwn
      hterm cfg.maxAttempts 1 le_rfl hn1 (by omega)
    refine ⟨h1, ?_⟩
    show chargeLoop cfg gw jitter 1 cfg.maxAttempts = _
    rw [← subscribeLoop_eq_chargeLoop]
    exact h1
  · intro s hs
    simp [isRetryable, hs]

/-- C2 witness: with the default configuration, a gateway failing with a
network error (no status) on every attempt makes `subscribeUser` fail with
attempt count 5, and a gateway answering 404 on the first call makes it
fail at once with attempt count 1 and no sleep. -/
theorem retry_exhaustion_and_terminal_witness :
    (subscribeUser defaultRetryConfig (fun _ => GatewayResult.err none)
        (fun _ => 7)).1 = ExecResult.failed defaultRetryConfig.maxAttempts ∧
    subscribeUser defaultRetryConfig (fun _ => GatewayResult.err (some 404))
        (fun _ => 7) = (ExecResult.failed 1, []) := by
  constructor
  · exact ((retry_exhaustion_and_terminal defaultRetryConfig
      (fun _ => GatewayResult.err none) (fun _ => 7) (by decide)).1
      (fun k _ _ => ⟨none, rfl, rfl⟩)).1
  · have h := ((retry_exhaustion_and_terminal defaultRetryConfig
      (fun _ => GatewayResult.err (some 404)) (fun _ => 7) (by decide)).2.1
      1 404 (by decide) (by decide) (fun k hk1 hk2 => absurd hk1 (by omega))
      rfl (by decide) (by decide) (by decide) (by decide)).1
    simpa using h

/-- C4: when attempts fail retryably, the delay slept after attempt `n` is
`min(maxDelay, baseDelay * 2^(n-1)) + jitter(n)` with the jitter draw below
100ms, and the unconfigured defaults are 500ms base, 5000ms cap and 5
attempts. -/
theorem backoff_delay_formula (cfg : RetryConfig) (gw : Nat → GatewayResult)
    (jitter : Nat → Nat) (hmax : 1 ≤ cfg.maxAttempts)
    (hj : ∀ k, jitter k < 100)
    (hgw : ∀ k, 1 ≤ k → k ≤ cfg.maxAttempts →
      ∃ st, gw k = GatewayResult.err st ∧ isRetryable st = true) :
    (subscribeUser cfg gw jitter).2 =
      (List.range' 1 (cfg.maxAttempts - 1)).map
        (fun n => min cfg.maxDelayMs (cfg.baseDelayMs * 2 ^ (n - 1)) + jitter n)
    ∧ (chargeUser cfg gw jitter).2 =
      (List.range' 1 (cfg.maxAttempts - 1)).map
        (fun n => min cfg.maxDelayMs (cfg.baseDelayMs * 2 ^ (n - 1)) + jitter n)
    ∧ (∀ n, jitter n < 100)
    ∧ defaultRetryConfig.baseDelayMs = 500
    ∧ defaultRetryConfig.maxDelayMs = 5000
    ∧ defaultRetryConfig.maxAttempts = 5 := by
  have h1 := subscribeLoop_all_retryable cfg gw jitter hgw cfg.maxAttempts 1
    le_rfl hmax (by omega)
  refine ⟨?_, ?_, hj, by decide, by decide, by decide⟩
  · show (subscribeLoop cfg gw jitter 1 cfg.maxAttempts).2 = _
    rw [h1]
    rfl
  · show (chargeLoop cfg gw jitter 1 cfg.maxAttempts).2 = _
    rw [← subscribeLoop_eq_chargeLoop, h1]
    rfl

/-- C4 witness: default configuration, jitter draw 7 on every attempt, a
network error on every attempt: the four sleeps are 507, 1007, 2007, 4007. -/
theorem backoff_delay_formula_witness :
    (subscribeUser defaultRetryConfig (fun _ => GatewayResult.err none)
        (fun _ => 7)).2 = [507, 1007, 2007, 4007] := by
  have h := (backoff_delay_formula defaultRetryConfig
      (fun _ => GatewayResult.err none) (fun _ => 7) (by decide)
      (fun _ => by show (7 : Nat) < 100; decide)
      (fun k _ _ => ⟨none, rfl, rfl⟩)).1
  rw [h]
  decide

/-- C3 counterexample: on a 200 response whose body lacks a success
indicator, `sendSms` (notify) succeeds immediately and never retries, while
`subscribeUser`/`chargeUser` treat the very same response as a retryable
failure and exhaust all five attempts — the three action kinds do not all
share the success-indicator/retry behaviour. -/
theorem notify_lacks_success_indicator_check :
    sendSms (GatewayResult.ok none) = SendResult.success ∧
    subscribeUser defaultRetryConfig (fun _ => GatewayResult.ok none)
        (fun _ => 7) = (ExecResult.failed 5, [507, 1007, 2007, 4007]) ∧
    chargeUser defaultRetryConfig (fun _ => GatewayResult.ok none)
        (fun _ => 7) = (ExecResult.failed 5, [507, 1007, 2007, 4007]) := by
  exact ⟨rfl, by decide, by decide⟩

/-- C3 amended: subscribe and charge share identical
retry/backoff/success-indicator behaviour (their executors agree on every
configuration and gateway behaviour, and a 200 body without
`success === true` is a retryable failure: here it is retried once and
succeeds on attempt 2 after one backoff sleep); notify (`sendSms`) instead
performs a single attempt that succeeds on any resolved response regardless
of body and throws on any rejected call. -/
theorem subscribe_charge_share_executor (cfg : RetryConfig)
    (gw : Nat → GatewayResult) (jitter : Nat → Nat) (b : Option Bool)
    (hmax : 2 ≤ cfg.maxAttempts) (hb : b ≠ some true)
    (h1 : gw 1 = GatewayResult.ok b)
    (h2 : gw 2 = GatewayResult.ok (some true)) :
    (∀ (cfg2 : RetryConfig) (gw2 : Nat → GatewayResult) (jitter2 : Nat → Nat),
      subscribeUser cfg2 gw2 jitter2 = chargeUser cfg2 gw2 jitter2)
    ∧ subscribeUser cfg gw jitter =
        (ExecResult.success 2, [computeDelay cfg 1 (jitter 1)])
    ∧ chargeUser cfg gw jitter =
        (ExecResult.success 2, [computeDelay cfg 1 (jitter 1)])
    ∧ (∀ body, sendSms (GatewayResult.ok body) = SendResult.success)
    ∧ (∀ st, sendSms (GatewayResult.err st) = SendResult.thrown) := by
  have hshare : ∀ (cfg2 : RetryConfig) (gw2 : Nat → GatewayResult)
      (jitter2 : Nat → Nat),
      subscribeUser cfg2 gw2 jitter2 = chargeUser cfg2 gw2 jitter2 := by
    intro cfg2 gw2 jitter2
    exact subscribeLoop_eq_chargeLoop cfg2 gw2 jitter2 cfg2.maxAttempts 1
  have hrun : subscribeUser cfg gw jitter =
      (ExecResult.success 2, [computeDelay cfg 1 (jitter 1)]) := by
    obtain ⟨m, hm⟩ : ∃ m, cfg.maxAttempts = m + 2 :=
      ⟨cfg.maxAttempts - 2, by omega⟩
    show subscribeLoop cfg gw jitter 1 cfg.maxAttempts = _
    rw [hm, subscribeLoop_ok_retry cfg gw jitter 1 (m + 1) b h1 hb (by omega),
      subscribeLoop_ok_success cfg gw jitter 2 m h2]
  refine ⟨hshare, hrun, ?_, fun body => rfl, fun st => rfl⟩
  rw [← hshare cfg gw jitter]
  exact hrun

/-- C3 amended witness: default configuration, body without indicator on
attempt 1, explicit success on attempt 2: the executor succeeds on attempt
2 after one 507ms sleep. -/
theorem subscribe_charge_share_executor_witness :
    subscribeUser defaultRetryConfig
        (fun k => if k = 1 then GatewayResult.ok none
                  else GatewayResult.ok (some true)) (fun _ => 7) =
      (ExecResult.success 2, [507]) := by
  have h := (subscribe_charge_share_executor defaultRetryConfig
      (fun k => if k = 1 then GatewayResult.ok none
                else GatewayResult.ok (some true))
      (fun _ => 7) none (by decide) (by decide) (by decide) (by decide)).2.1
  rw [h]
  decide

/-- C1: behaviour of the code at the failing input.  When the Question
Provider returns only 3 questions (fewer than N = 10), `startQuiz` raises
nothing: it stores a 3-question session for the subscriber and returns the
first question, silently running a short quiz — where the claim requires an
`InsufficientQuestions` failure and no session. -/
theorem short_provider_creates_session :
    shortQuestions.length = 3 ∧
    ((startQuiz "2547000000" shortQuestions emptyStore).2) "2547000000" =
      some { phoneNumber := "2547000000", currentQuestionIndex := 0,
             questions := shortQuestions, currentScore := 0,
             isCompleted := false, aggregateScore := 0 } ∧
    (startQuiz "2547000000" shortQuestions emptyStore).1 =
      some ⟨"1", "T1", ["A1", "B1", "C1", "D1"], "A"⟩ := by
  refine ⟨by decide, by decide, by decide⟩

/-- C5: with the provider returning N = 10 questions, `start` stores a
session with index 0, score 0, not completed and exactly those 10
questions, unconditionally overwriting whatever the store held for that
subscriber (the result is independent of the prior store), and returns the
first question. -/
theorem start_creates_fresh_session (p : String) (qs : List Question)
    (σ : Store) (hlen : qs.length = 10) :
    ((startQuiz p qs σ).2) p =
      some { phoneNumber := p, currentQuestionIndex := 0, questions := qs,
             currentScore := 0, isCompleted := false, aggregateScore := 0 }
    ∧ (∀ s, ((startQuiz p qs σ).2) p = some s → s.questions.length = 10)
    ∧ ((startQuiz p qs σ).2) p = ((startQuiz p qs emptyStore).2) p
    ∧ (∃ q, (startQuiz p qs σ).1 = some q ∧ qs[0]? = some q) := by
  have hst : ((startQuiz p qs σ).2) p =
      some { phoneNumber := p, currentQuestionIndex := 0, questions := qs,
             currentScore := 0, isCompleted := false, aggregateScore := 0 } := by
    simp [startQuiz, setSession]
  refine ⟨hst, ?_, ?_, ?_⟩
  · intro s hsome
    rw [hst, Option.some_inj] at hsome
    rw [← hsome]
    exact hlen
  · rw [hst]
    simp [startQuiz, setSession]
  · cases qs with
    | nil => simp at hlen
    | cons q rest => exact ⟨q, by simp [startQuiz], by simp⟩

/-- C5 witness at the ten demo questions and the empty store. -/
theorem start_creates_fresh_session_witness :
    demoQuestions.length = 10 ∧
    ((startQuiz "2547000000" demoQuestions emptyStore).2) "2547000000" =
      some { phoneNumber := "2547000000", currentQuestionIndex := 0,
             questions := demoQuestions, currentScore := 0,
             isCompleted := false, aggregateScore := 0 } ∧
    (∃ q, (startQuiz "2547000000" demoQuestions emptyStore).1 = some q ∧
      demoQuestions[0]? = some q) :=
  ⟨by decide,
   (start_creates_fresh_session "2547000000" demoQuestions emptyStore (by decide)).1,
   (start_creates_fresh_session "2547000000" demoQuestions emptyStore (by decide)).2.2.2⟩

/-- C6: for an active session, the correctness flag is the comparison of the
trimmed, case-folded answer against the trimmed, case-folded correct-answer
token (so `" a "` matches `"A"`); the score increments exactly on a match
(any non-matching answer, malformed or not, is scored incorrect); and the
index always advances by one: a non-final question leaves the stored
session at index + 1 and a final question removes the session — the same
question is never re-presented. -/
theorem answer_comparison_and_advance (p a : String) (σ : Store)
    (s : QuizSession) (q : Question) (c : Bool) (sc : Nat)
    (hs : σ p = some s) (hc : s.isCompleted = false)
    (hq : s.questions[s.currentQuestionIndex]? = some q)
    (hcdef : c = (jsToUpper (jsTrim q.correctAnswer) == jsToUpper (jsTrim a)))
    (hscdef : sc = if c then s.currentScore + 1 else s.currentScore) :
    (∃ nq d ag, (processAnswer p a σ).1 = AnswerResult.answered c nq d sc ag)
    ∧ (s.currentQuestionIndex + 1 < s.questions.length →
        ((processAnswer p a σ).2) p =
          some { s with currentScore := sc,
                        currentQuestionIndex := s.currentQuestionIndex + 1 })
    ∧ (s.questions.length ≤ s.currentQuestionIndex + 1 →
        ((processAnswer p a σ).2) p = none) := by
  subst hcdef
  subst hscdef
  by_cases hdone : s.questions.length ≤ s.currentQuestionIndex + 1
  · rw [processAnswer_final p a σ s q hs hc hq hdone]
    refine ⟨⟨none, true, _, rfl⟩, ?_, ?_⟩
    · intro hlt
      omega
    · intro _
      simp [clearSession]
  · have hmid : s.currentQuestionIndex + 1 < s.questions.length := by omega
    rw [processAnswer_mid p a σ s q hs hc hq hmid]
    refine ⟨⟨_, false, _, rfl⟩, ?_, ?_⟩
    · intro _
      simp [setSession]
    · intro hle
      omega

/-- C6 witness: answer `" a "` against correct token `"A"` on the first of
three questions is scored correct (score 1) — case- and
whitespace-insensitive matching. -/
theorem answer_comparison_and_advance_witness :
    (setSession "p" demoSession emptyStore) "p" = some demoSession ∧
    demoSession.isCompleted = false ∧
    demoSession.questions[demoSession.currentQuestionIndex]? =
      some ⟨"1", "T1", ["A1", "B1", "C1", "D1"], "A"⟩ ∧
    (true : Bool) = (jsToUpper (jsTrim "A") == jsToUpper (jsTrim " a ")) ∧
    (∃ nq d ag,
      (processAnswer "p" " a " (setSession "p" demoSession emptyStore)).1 =
        AnswerResult.answered true nq d 1 ag) :=
  ⟨by decide, by decide, by decide, by decide,
   (answer_comparison_and_advance "p" " a "
      (setSession "p" demoSession emptyStore) demoSession
      ⟨"1", "T1", ["A1", "B1", "C1", "D1"], "A"⟩ true 1
      (by decide) (by decide) (by decide) (by decide) (by decide)).1⟩

/-- C10: `startQuiz` and `processAnswer` for subscriber `p` leave the
session stored under any other key `q` unchanged, and whenever
`processAnswer` returns the no-active-session error the entire store is
unchanged. -/
theorem quiz_frame_effects (p q a : String) (qs : List Question) (σ : Store)
    (hpq : p ≠ q) :
    ((startQuiz p qs σ).2) q = σ q
    ∧ ((processAnswer p a σ).2) q = σ q
    ∧ (∀ msg, (processAnswer p a σ).1 = AnswerResult.error msg →
        (processAnswer p a σ).2 = σ) := by
  have hqp : ¬ (q = p) := fun h => hpq h.symm
  refine ⟨by simp [startQuiz, setSession, hqp], ?_, ?_⟩
  · cases hσp : σ p with
    | none => rw [processAnswer_none p a σ hσp]
    | some s =>
      by_cases hc : s.isCompleted = true
      · rw [processAnswer_completed p a σ s hσp hc]
      · have hcf : s.isCompleted = false := by
          cases hb : s.isCompleted
          · rfl
          · exact absurd hb hc
        cases hq2 : s.questions[s.currentQuestionIndex]? with
        | none => simp [processAnswer, getSession, hσp, hcf, hq2]
        | some cq =>
          by_cases hdone : s.questions.length ≤ s.currentQuestionIndex + 1
          · rw [processAnswer_final p a σ s cq hσp hcf hq2 hdone]
            simp [clearSession, hqp]
          · have hmid : s.currentQuestionIndex + 1 < s.questions.length := by
              omega
            rw [processAnswer_mid p a σ s cq hσp hcf hq2 hmid]
            simp [setSession, hqp]
  · intro msg hmsg
    cases hσp : σ p with
    | none => rw [processAnswer_none p a σ hσp]
    | some s =>
      by_cases hc : s.isCompleted = true
      · rw [processAnswer_completed p a σ s hσp hc]
      · have hcf : s.isCompleted = false := by
          cases hb : s.isCompleted
          · rfl
          · exact absurd hb hc
        cases hq2 : s.questions[s.currentQuestionIndex]? with
        | none =>
          simp [processAnswer, getSession, hσp, hcf, hq2] at hmsg
        | some cq =>
          by_cases hdone : s.questions.length ≤ s.currentQuestionIndex + 1
          · rw [processAnswer_final p a σ s cq hσp hcf hq2 hdone] at hmsg
            simp at hmsg
          · have hmid : s.currentQuestionIndex + 1 < s.questions.length := by
              omega
            rw [processAnswer_mid p a σ s cq hσp hcf hq2 hmid] at hmsg
            simp at hmsg

/-- C10 witness: starting a quiz for `"p"` leaves the session stored under
`"q"` untouched. -/
theorem quiz_frame_effects_witness :
    ("p" : String) ≠ "q" ∧
    ((startQuiz "p" demoQuestions
        ((startQuiz "q" demoQuestions emptyStore).2)).2) "q" =
      ((startQuiz "q" demoQuestions emptyStore).2) "q" :=
  ⟨by decide,
   (quiz_frame_effects "p" "q" "A" demoQuestions
      ((startQuiz "q" demoQuestions emptyStore).2) (by decide)).1⟩

/-- C7: for a fresh session started with 10 provider questions, the 10th
`submitAnswer` call returns `done = true` and removes the session from the
store; and any `submitAnswer` call made when no session exists, or when the
stored session is completed, yields the no-active-session outcome and
leaves the store exactly as it was. -/
theorem nth_answer_completes_then_no_session (p : String)
    (qs : List Question) (answers : List String) (σ σ₀ : Store)
    (hq : qs.length = 10) (ha : answers.length = 10) (h₀ : σ₀ p = none) :
    (∃ c sc ag, (runAnswersLast p answers ((startQuiz p qs σ).2)).1 =
        AnswerResult.answered c none true sc ag)
    ∧ ((runAnswersLast p answers ((startQuiz p qs σ).2)).2) p = none
    ∧ (∀ a, processAnswer p a σ₀ = (AnswerResult.error noActiveMsg, σ₀))
    ∧ (∀ a (σ₁ : Store) s, σ₁ p = some s → s.isCompleted = true →
        processAnswer p a σ₁ = (AnswerResult.error noActiveMsg, σ₁)) := by
  have hmain := runAnswersLast_completes p answers ((startQuiz p qs σ).2)
    { phoneNumber := p, currentQuestionIndex := 0, questions := qs,
      currentScore := 0, isCompleted := false, aggregateScore := 0 }
    (by intro hnil; rw [hnil] at ha; simp at ha)
    (by simp [startQuiz, setSession]) rfl (by simpa [ha] using hq.symm)
  exact ⟨hmain.1, hmain.2,
    fun a => processAnswer_none p a σ₀ h₀,
    fun a σ₁ s hs hc => processAnswer_completed p a σ₁ s hs hc⟩

/-- C7 witness: ten demo questions, ten answers, empty store. -/
theorem nth_answer_completes_then_no_session_witness :
    demoQuestions.length = 10 ∧
    (List.replicate 10 "A").length = 10 ∧
    emptyStore "2547000000" = none ∧
    ((runAnswersLast "2547000000" (List.replicate 10 "A")
        ((startQuiz "2547000000" demoQuestions emptyStore).2)).2) "2547000000" =
      none :=
  ⟨by decide, by decide, rfl,
   (nth_answer_completes_then_no_session "2547000000" demoQuestions
      (List.replicate 10 "A") emptyStore emptyStore
      (by decide) (by decide) rfl).2.1⟩

/-- C8: with a provider respecting its contract (a non-empty question list),
the session `start` produces satisfies the bounds-and-completion invariant;
the session the `submitAnswer` mutation produces satisfies it whenever the
input session does not yet show completed and has its current question in
bounds; and both operations preserve the invariant across the whole store. -/
theorem session_invariant_preserved (p a : String) (qs : List Question)
    (σ : Store) (hσ : storeInv σ) (hqs : qs ≠ []) :
    (∀ s, ((startQuiz p qs σ).2) p = some s → sessionInv s)
    ∧ storeInv ((startQuiz p qs σ).2)
    ∧ (∀ (s : QuizSession) (cq : Question), s.isCompleted = false →
        s.questions[s.currentQuestionIndex]? = some cq →
        sessionInv (updatedSession s cq a))
    ∧ storeInv ((processAnswer p a σ).2) := by
  have hlen0 : qs.length ≠ 0 := by
    intro h
    exact hqs (List.length_eq_zero.mp h)
  have hfresh : sessionInv
      { phoneNumber := p, currentQuestionIndex := 0, questions := qs,
        currentScore := 0, isCompleted := false, aggregateScore := 0 } := by
    refine ⟨by simp, ?_⟩
    simp
    omega
  have hstart : ∀ s, ((startQuiz p qs σ).2) p = some s → sessionInv s := by
    intro s hsome
    have : ((startQuiz p qs σ).2) p =
        some { phoneNumber := p, currentQuestionIndex := 0, questions := qs,
               currentScore := 0, isCompleted := false, aggregateScore := 0 } := by
      simp [startQuiz, setSession]
    rw [this, Option.some_inj] at hsome
    rw [← hsome]
    exact hfresh
  refine ⟨hstart, ?_, fun s cq hc hq => updatedSession_inv a s cq hc hq, ?_⟩
  · intro q' s' hq'
    by_cases hqq : q' = p
    · subst hqq
      exact hstart s' hq'
    · have : ((startQuiz p qs σ).2) q' = σ q' := by
        simp [startQuiz, setSession, hqq]
      rw [this] at hq'
      exact hσ q' s' hq'
  · cases hσp : σ p with
    | none =>
      rw [processAnswer_none p a σ hσp]
      exact hσ
    | some s =>
      by_cases hcomp : s.isCompleted = true
      · rw [processAnswer_completed p a σ s hσp hcomp]
        exact hσ
      · have hcf : s.isCompleted = false := by
          cases hb : s.isCompleted
          · rfl
          · exact absurd hb hcomp
        cases hq2 : s.questions[s.currentQuestionIndex]? with
        | none =>
          have hid : (processAnswer p a σ).2 = σ := by
            simp [processAnswer, getSession, hσp, hcf, hq2]
          rw [hid]
          exact hσ
        | some cq =>
          have hinvup := updatedSession_inv a s cq hcf hq2
          by_cases hdone : s.questions.length ≤ s.currentQuestionIndex + 1
          · rw [processAnswer_final p a σ s cq hσp hcf hq2 hdone]
            intro q' s' hq'
            by_cases hqq : q' = p
            · subst hqq
              simp [clearSession] at hq'
            · simp only [clearSession, if_neg hqq] at hq'
              exact hσ q' s' hq'
          · have hmid : s.currentQuestionIndex + 1 < s.questions.length := by
              omega
            rw [processAnswer_mid p a σ s cq hσp hcf hq2 hmid]
            intro q' s' hq'
            by_cases hqq : q' = p
            · subst hqq
              simp only [setSession, eq_self_iff_true, if_true, Option.some_inj] at hq'
              rw [← hq']
              have hup : updatedSession s cq a =
                  { s with
                      currentScore :=
                        if jsToUpper (jsTrim cq.correctAnswer) ==
                            jsToUpper (jsTrim a) then
                          s.currentScore + 1 else s.currentScore
                      currentQuestionIndex := s.currentQuestionIndex + 1 } := by
                simp [updatedSession, hdone]
              rw [← hup]
              exact hinvup
            · simp only [setSession, if_neg hqq] at hq'
              exact hσ q' s' hq'

/-- C8 witness: empty store, ten demo questions; the session `start` creates
satisfies the invariant. -/
theorem session_invariant_preserved_witness :
    storeInv emptyStore ∧ demoQuestions ≠ [] ∧
    sessionInv { phoneNumber := "p", currentQuestionIndex := 0,
                 questions := demoQuestions, currentScore := 0,
                 isCompleted := false, aggregateScore := 0 } :=
  ⟨fun q s h => absurd h (by simp [emptyStore]),
   by decide,
   (session_invariant_preserved "p" "A" demoQuestions emptyStore
      (fun q s h => absurd h (by simp [emptyStore])) (by decide)).1 _ (by decide)⟩

/-- C9: subscriber 2547000000 sends BTD: the dispatcher performs notify,
subscribe(DAILY), charge(DAILY), then start, and replies with the first
question in the documented format; the subscriber then answers all 10
questions correctly and the final reply is exactly the completion text with
score 10/10 and aggregate 10, with the session gone from the store. -/
theorem btd_full_scenario :
    (handleIncoming demoQuestions "2547000000" "BTD" emptyStore).actions =
      [Action.notify "2547000000" welcomeDaily,
       Action.subscribe "2547000000" "DAILY",
       Action.charge "2547000000" "DAILY",
       Action.start "2547000000",
       Action.notify "2547000000"
         "Quiz started!\nQ1: T1\nA) A1\nB) B1\nC) C1\nD) D1"]
    ∧ (handleIncoming demoQuestions "2547000000" "BTD" emptyStore).reply =
        some "Quiz started!\nQ1: T1\nA) A1\nB) B1\nC) C1\nD) D1"
    ∧ ("Quiz started!\nQ1: T1\nA) A1\nB) B1\nC) C1\nD) D1" =
        "Quiz started!\nQ1: " ++ "T1" ++ "\nA) A1\nB) B1\nC) C1\nD) D1")
    ∧ (runMessages demoQuestions "2547000000" (List.replicate 10 "A")
        (handleIncoming demoQuestions "2547000000" "BTD" emptyStore).store).reply =
        some "Quiz complete! Your score: 10/10. Aggregate: 10"
    ∧ (runMessages demoQuestions "2547000000" (List.replicate 10 "A")
        (handleIncoming demoQuestions "2547000000" "BTD" emptyStore).store).store
        "2547000000" = none := by
  exact ⟨by decide, by decide, by decide, by decide, by decide⟩

end Sano
